import Mathlib

/-!
# Verification of the queue poller and message processing of `oec`

Shallow embedding of the configuration types of `conf/configuration.go`, of
`queue/queue_message.go`, and of `NewPoller`, `StartPolling`, `StopPolling`,
`terminateMessageVisibility` and `poll` of `queue/poller.go`. The functions `run`
and `wait` of the poller select on channels and timers and are not embedded; that
`StartPolling` executes `go p.run()` is recorded in its outcome.

Conventions of the embedding.

* A Go `error` is an `Option String`: `none` is `nil`, `some s` is a non-nil
  error whose `Error()` text is `s`.
* `int32` and `int64` values are `Int`. The only integer operations of the code
  are the comparison `availableWorkerCount > 0`, the widening `int64(int32)` and
  `Min`; none of them can overflow, so no wrap-around is needed.
* The pointers `*string` and `*sqs.Message` are modelled by the values they point
  to: SQS populates `Body` and `MessageId` of every message it delivers, and
  `NewMaridMessage` refuses nil arguments.
* External collaborators (`json.Unmarshal`, the `runbook` function variables, the
  `WorkerPool` and the `QueueProvider`) are parameters. Every call made on them is
  appended to a trace, so that "is called", "is called exactly once" and "is not
  called" are statements about the trace.
-/

namespace Oec

/-! ## `conf/configuration.go` -/

abbrev ActionName := String

structure MappedAction where
  Source : String
  RepoOwner : String
  RepoName : String
  RepoFilePath : String
  RepoToken : String
  FilePath : String
  EnvironmentVariables : List String
deriving DecidableEq, Repr

/-- The Go type `map[ActionName]MappedAction`, as an association list read with
`List.lookup`. -/
abbrev ActionMappings := List (ActionName × MappedAction)

structure PollerConf where
  PollingWaitIntervalInMillis : Int
  VisibilityTimeoutInSeconds : Int
  MaxNumberOfMessages : Int
deriving DecidableEq, Repr

/-! ## `queue/queue_message.go` -/

/-- The two fields of `sqs.Message` that the code reads. -/
structure Message where
  Body : String
  MessageId : String
deriving DecidableEq, Repr

/-- Modelled from the spec: the `alert` object of the message body (its Go type is
declared outside `src/`); only `alertId` is read. -/
structure Alert where
  AlertId : String
deriving DecidableEq, Repr

/-- Modelled from the spec: the JSON shape of the message body, `QueuePayload`
(its Go type is declared outside `src/`); the code reads `Action` and
`Alert.AlertId`. -/
structure QueuePayload where
  Action : String
  Alert : Alert
deriving DecidableEq, Repr

/-- The struct `runbook.ActionResultPayload`, with the four fields that `Process`
fills in. -/
structure ActionResultPayload where
  IsSuccessful : Bool
  AlertId : String
  Action : String
  FailureMessage : String
deriving DecidableEq, Repr

structure MaridQueueMessage where
  message : Message
  actionMappings : ActionMappings
  apiKey : String
  baseUrl : String
deriving DecidableEq, Repr

/-- The functions `Process` calls outside its package: `json.Unmarshal` into a
`QueuePayload`, and the function variables `runbook.ExecuteRunbookFunc`
(returning standard output, error output and an error) and
`runbook.SendResultToOpsGenieFunc`. -/
structure Externals where
  Unmarshal : String → Except String QueuePayload
  ExecuteRunbookFunc : MappedAction → String → String × String × Option String
  SendResultToOpsGenieFunc : ActionResultPayload → String → String → Option String

/-- The `logrus` levels the code writes at. -/
inductive LogLevel where
  | Trace
  | Debug
  | Info
  | Warn
  | Error
deriving DecidableEq, Repr

/-- What `Process` does that is visible from outside, in order. -/
inductive ProcessEvent where
  | ExecuteRunbook (mappedAction : MappedAction) (body : String)
  | Log (level : LogLevel) (text : String)
  | SendResult (result : ActionResultPayload) (apiKey baseUrl : String)
deriving DecidableEq, Repr

structure ProcessOutcome where
  events : List ProcessEvent
  err : Option String
deriving DecidableEq, Repr

def MaridQueueMessage.Message (mqm : MaridQueueMessage) : Message :=
  mqm.message

def MaridQueueMessage.Process (ext : Externals) (mqm : MaridQueueMessage) : ProcessOutcome :=
  match ext.Unmarshal mqm.message.Body with
  | .error err => { events := [], err := some err }
  | .ok queuePayload =>
    let action := queuePayload.Action
    if action = "" then
      { events := [], err := some "SQS message does not contain action property" }
    else
      match mqm.actionMappings.lookup action with
      | none =>
        { events := [], err := some ("There is no mapped action found for [" ++ action ++ "]") }
      | some mappedAction =>
        match ext.ExecuteRunbookFunc mappedAction mqm.message.Body with
        | (_, errorOutput, err) =>
          let logFailed : List ProcessEvent :=
            match err with
            | some e =>
              [.Log .Debug ("Action[" ++ action ++ "] execution of message[" ++ mqm.message.MessageId
                ++ "] failed: " ++ e)]
            | none => []
          let (success, logOutput) : Bool × List ProcessEvent :=
            if errorOutput ≠ "" then
              (false, [.Log .Debug ("Action[" ++ action ++ "] execution of message["
                ++ mqm.message.MessageId ++ "] produce error output: " ++ errorOutput)])
            else
              (true, [.Log .Debug ("Action[" ++ action ++ "] execution of message["
                ++ mqm.message.MessageId ++ "] has been completed.")])
          let result : ActionResultPayload :=
            { IsSuccessful := success
              AlertId := queuePayload.Alert.AlertId
              Action := queuePayload.Action
              FailureMessage := errorOutput }
          let logSent : List ProcessEvent :=
            match ext.SendResultToOpsGenieFunc result mqm.apiKey mqm.baseUrl with
            | some e =>
              [.Log .Warn ("Could not send action[" ++ action ++ "] result of message["
                ++ mqm.message.MessageId ++ "] to Opsgenie: " ++ e)]
            | none => [.Log .Debug "Successfully sent result to OpsGenie."]
          { events := [.ExecuteRunbook mappedAction mqm.message.Body] ++ logFailed ++ logOutput
              ++ [.SendResult result mqm.apiKey mqm.baseUrl] ++ logSent
            err := none }

def NewMaridMessage (message : Option Message) (actionMappings : Option ActionMappings)
    (apiKey baseUrl : Option String) : Option MaridQueueMessage :=
  match message, actionMappings, apiKey, baseUrl with
  | some message, some actionMappings, some apiKey, some baseUrl =>
    some { message := message, actionMappings := actionMappings, apiKey := apiKey, baseUrl := baseUrl }
  | _, _, _, _ => none

/-- The results handed to `SendResultToOpsGenieFunc`, in the order of the calls. -/
def postedResults (events : List ProcessEvent) : List ActionResultPayload :=
  events.filterMap fun e =>
    match e with
    | .SendResult result _ _ => some result
    | _ => none

/-! ### Fixtures: the messages of the end-to-end scenarios -/

def restartAction : MappedAction :=
  { Source := "local", RepoOwner := "", RepoName := "", RepoFilePath := "", RepoToken := "",
    FilePath := "/tmp/r.sh", EnvironmentVariables := [] }

def restartBody : String :=
  "\x7b\"action\":\"restart\",\"alert\":\x7b\"alertId\":\"A1\"\x7d\x7d"

def nopeBody : String :=
  "\x7b\"action\":\"nope\",\"alert\":\x7b\"alertId\":\"A9\"\x7d\x7d"

/-- A decoder that knows the two bodies of the scenarios and rejects everything
else, as `json.Unmarshal` rejects a body that is not JSON. -/
def scenarioUnmarshal (body : String) : Except String QueuePayload :=
  if body = restartBody then .ok { Action := "restart", Alert := { AlertId := "A1" } }
  else if body = nopeBody then .ok { Action := "nope", Alert := { AlertId := "A9" } }
  else .error "invalid character"

/-- The scenario collaborators: the runbook answers `run`, the post answers `post`. -/
def scenarioExternals (run : String × String × Option String) (post : Option String) :
    Externals :=
  { Unmarshal := scenarioUnmarshal
    ExecuteRunbookFunc := fun _ _ => run
    SendResultToOpsGenieFunc := fun _ _ _ => post }

def scenarioMessage (body : String) : MaridQueueMessage :=
  { message := { Body := body, MessageId := "m1" }
    actionMappings := [("restart", restartAction)]
    apiKey := "key"
    baseUrl := "https://api.example" }

/-! ## `queue/poller.go` -/

/-- Modelled from the spec: the Job built by `NewSqsJob` (declared outside `src/`),
which owns exactly one message and borrows `actionMappings`, `apiKey`, `baseUrl`
and `integrationId`. The reference to the originating queue provider is the
poller's own provider and is left out. -/
structure SqsJob where
  message : Message
  actionMappings : ActionMappings
  apiKey : String
  baseUrl : String
  integrationId : String
deriving DecidableEq, Repr

/-- The interface `WorkerPool` as `poll` uses it. The pool is stateful: `Submit i job`
is its answer (`isSubmitted`, `err`) to the submission made at index `i` of the
batch, which is the `i`-th submission of this `poll`. -/
structure WorkerPool where
  NumberOfAvailableWorker : Int
  Submit : Nat → SqsJob → Bool × Option String

/-- The interface `QueueProvider` as the poller uses it. `Region` stands for
`MaridMetadata().Region()`. `ChangeMessageVisibility n message seconds` is the
answer to the call made after `n` earlier calls of this `poll`. -/
structure QueueProvider where
  Region : String
  ReceiveMessage : Int → Int → List Message × Option String
  ChangeMessageVisibility : Nat → Message → Int → Option String

/-- A Go channel of the poller, reduced to what `close` observes. -/
structure Chan where
  closed : Bool
deriving DecidableEq, Repr

/-- The Go builtin `close`: closing a closed channel panics. A panic is the
`Except.error` of this embedding. -/
def Chan.close (c : Chan) : Except String Chan :=
  if c.closed then .error "close of closed channel" else .ok { closed := true }

/-- The struct `MaridPoller`. The mutex `startStopMutex` only serialises
`StartPolling` and `StopPolling`, which this embedding runs one at a time. -/
structure MaridPoller where
  workerPool : WorkerPool
  queueProvider : QueueProvider
  integrationId : String
  apiKey : String
  baseUrl : String
  pollerConf : PollerConf
  actionMappings : ActionMappings
  isRunning : Bool
  quit : Chan
  wakeUpChan : Chan

def NewPoller (workerPool : WorkerPool) (queueProvider : QueueProvider) (pollerConf : PollerConf)
    (actionMappings : ActionMappings) (apiKey baseUrl integrationId : String) : MaridPoller :=
  { quit := { closed := false }
    wakeUpChan := { closed := false }
    isRunning := false
    pollerConf := pollerConf
    actionMappings := actionMappings
    apiKey := apiKey
    baseUrl := baseUrl
    integrationId := integrationId
    workerPool := workerPool
    queueProvider := queueProvider }

/-- What a call of `StartPolling` leaves behind: the poller, the returned error and
whether `go p.run()` was executed. -/
structure StartOutcome where
  poller : MaridPoller
  err : Option String
  runStarted : Bool

/-- What a call of `StopPolling` that returns leaves behind. -/
structure StopOutcome where
  poller : MaridPoller
  err : Option String

def MaridPoller.StopPolling (p : MaridPoller) : Except String StopOutcome :=
  if !p.isRunning then
    .ok { poller := p, err := some "Poller is not running." }
  else do
    let quit ← p.quit.close
    let wakeUpChan ← p.wakeUpChan.close
    .ok { poller := { p with quit := quit, wakeUpChan := wakeUpChan, isRunning := false }
          err := none }

def MaridPoller.StartPolling (p : MaridPoller) : StartOutcome :=
  if p.isRunning then
    { poller := p, err := some "Poller is already running.", runStarted := false }
  else
    { poller := { p with isRunning := true }, err := none, runStarted := true }

/-- The two lifecycle calls of the interface `Poller`. -/
inductive LifecycleCall where
  | StartPolling
  | StopPolling
deriving DecidableEq, Repr

/-- One lifecycle call on a poller; `Except.error` is a panic. -/
def MaridPoller.call (p : MaridPoller) : LifecycleCall → Except String MaridPoller
  | .StartPolling => .ok p.StartPolling.poller
  | .StopPolling => (fun o => o.poller) <$> p.StopPolling

/-- A sequence of lifecycle calls, one after the other; it stops at the first panic. -/
def MaridPoller.calls (p : MaridPoller) : List LifecycleCall → Except String MaridPoller
  | [] => .ok p
  | c :: cs => p.call c >>= fun q => q.calls cs

/-- What `poll` does on its collaborators, in order. -/
inductive PollEvent where
  | NumberOfAvailableWorker
  | ReceiveMessage (maxNumberOfMessages visibilityTimeoutInSeconds : Int)
  | Submit (job : SqsJob)
  | ChangeMessageVisibility (message : Message) (visibilityTimeoutInSeconds : Int)
  | Log (level : LogLevel) (text : String)
deriving DecidableEq, Repr

/-- The arguments of the `ReceiveMessage` calls of a trace, in order. -/
def receiveCalls (trace : List PollEvent) : List (Int × Int) :=
  trace.filterMap fun e =>
    match e with
    | .ReceiveMessage maxNumberOfMessages visibilityTimeoutInSeconds =>
      some (maxNumberOfMessages, visibilityTimeoutInSeconds)
    | _ => none

/-- The jobs of the `Submit` calls of a trace, in order. -/
def submitCalls (trace : List PollEvent) : List SqsJob :=
  trace.filterMap fun e =>
    match e with
    | .Submit job => some job
    | _ => none

/-- The arguments of the `ChangeMessageVisibility` calls of a trace, in order. -/
def visibilityCalls (trace : List PollEvent) : List (Message × Int) :=
  trace.filterMap fun e =>
    match e with
    | .ChangeMessageVisibility message visibilityTimeoutInSeconds =>
      some (message, visibilityTimeoutInSeconds)
    | _ => none

/-- Modelled from the spec: the helper `Min` on `int64` (declared outside `src/`),
"up to `min(pollerConf.maxNumberOfMessages, n)` messages". -/
def Min (x y : Int) : Int :=
  min x y

/-- The loop of `terminateMessageVisibility` over `messages`, continuing the trace. -/
def MaridPoller.terminateMessageVisibility (p : MaridPoller) :
    List Message → List PollEvent → List PollEvent
  | [], trace => trace
  | message :: rest, trace =>
    let region := p.queueProvider.Region
    let messageId := message.MessageId
    let err := p.queueProvider.ChangeMessageVisibility (visibilityCalls trace).length message 0
    let trace := trace ++ [.ChangeMessageVisibility message 0]
    match err with
    | some e =>
      p.terminateMessageVisibility rest
        (trace ++ [.Log .Warn ("Poller[" ++ region ++ "] could not terminate visibility of message["
          ++ messageId ++ "]: " ++ e ++ ".")])
    | none =>
      p.terminateMessageVisibility rest
        (trace ++ [.Log .Debug ("Poller[" ++ region ++ "] terminated visibility of message["
          ++ messageId ++ "].")])

/-- The job `poll` builds for one message. -/
def MaridPoller.newJob (p : MaridPoller) (message : Message) : SqsJob :=
  { message := message
    actionMappings := p.actionMappings
    apiKey := p.apiKey
    baseUrl := p.baseUrl
    integrationId := p.integrationId }

/-- Result of `poll`: the returned `shouldWait` and the calls made. -/
structure PollOutcome where
  shouldWait : Bool
  trace : List PollEvent
deriving DecidableEq, Repr

/-- The `for` loop of `poll` from index `i` on: the list argument is `messages[i:]`,
so that its head is `messages[i]` and the one-element list of its head is
`messages[i : i+1]`. -/
def MaridPoller.pollLoop (p : MaridPoller) : Nat → List Message → List PollEvent → PollOutcome
  | _, [], trace => { shouldWait := false, trace := trace }
  | i, message :: rest, trace =>
    let job := p.newJob message
    let answer := p.workerPool.Submit i job
    let trace := trace ++ [.Submit job]
    match answer with
    | (_, some err) =>
      { shouldWait := true
        trace := p.terminateMessageVisibility (message :: rest)
          (trace ++ [.Log .Debug ("Error occurred while submitting, messages will be terminated: "
            ++ err ++ ".")]) }
    | (true, none) => p.pollLoop (i + 1) rest trace
    | (false, none) => p.pollLoop (i + 1) rest (p.terminateMessageVisibility [message] trace)

def MaridPoller.poll (p : MaridPoller) : PollOutcome :=
  let availableWorkerCount := p.workerPool.NumberOfAvailableWorker
  let trace : List PollEvent := [.NumberOfAvailableWorker]
  if ¬ (availableWorkerCount > 0) then
    { shouldWait := true, trace := trace }
  else
    let region := p.queueProvider.Region
    let maxNumberOfMessages := Min p.pollerConf.MaxNumberOfMessages availableWorkerCount
    let received :=
      p.queueProvider.ReceiveMessage maxNumberOfMessages p.pollerConf.VisibilityTimeoutInSeconds
    let trace := trace ++
      [.ReceiveMessage maxNumberOfMessages p.pollerConf.VisibilityTimeoutInSeconds]
    match received with
    | (_, some err) =>
      { shouldWait := true
        trace := trace ++
          [.Log .Error ("Poller[" ++ region ++ "] could not receive message: " ++ err)] }
    | (messages, none) =>
      let messageLength := messages.length
      if messageLength = 0 then
        { shouldWait := true
          trace := trace ++
            [.Log .Trace ("There is no new message in the queue[" ++ region ++ "].")] }
      else
        p.pollLoop 0 messages
          (trace ++ [.Log .Debug ("Received " ++ toString messageLength
            ++ " messages from the queue[" ++ region ++ "].")])

/-- The messages of a batch, numbered from `i`, that the pool refuses without an
error: those whose `Submit` answers `(false, nil)`. -/
def MaridPoller.refused (p : MaridPoller) (i : Nat) (messages : List Message) : List Message :=
  ((messages.enumFrom i).filter fun im =>
    p.workerPool.Submit im.1 (p.newJob im.2) == (false, none)).map Prod.snd

/-! ### Fixtures: the batch of the poller scenarios -/

def m1 : Message := { Body := restartBody, MessageId := "m1" }

def m2 : Message := { Body := restartBody, MessageId := "m2" }

def m3 : Message := { Body := restartBody, MessageId := "m3" }

/-- A provider that delivers `messages` and whose first `ChangeMessageVisibility`
fails. -/
def scenarioProvider (messages : List Message) : QueueProvider :=
  { Region := "us-west-2"
    ReceiveMessage := fun _ _ => (messages, none)
    ChangeMessageVisibility := fun n _ _ =>
      if n = 0 then some "receipt handle has expired" else none }

/-- A poller freshly built over a pool with `available` free workers that answers
the submission at index `i` with `submit i`, polling at most ten messages with a
visibility timeout of thirty seconds. -/
def scenarioPoller (available : Int) (submit : Nat → Bool × Option String)
    (messages : List Message) : MaridPoller :=
  NewPoller { NumberOfAvailableWorker := available, Submit := fun i _ => submit i }
    (scenarioProvider messages)
    { PollingWaitIntervalInMillis := 100, VisibilityTimeoutInSeconds := 30,
      MaxNumberOfMessages := 10 }
    [("restart", restartAction)] "key" "https://api.example" "integration"

/-- The pool of the scenario "pool stopped mid-batch": it accepts the first job and
is stopped from the second on. -/
def stoppedAtSecond (i : Nat) : Bool × Option String :=
  if i = 0 then (true, none) else (false, some "pool stopped")

/-- A pool that is full for the second job only. -/
def fullAtSecond (i : Nat) : Bool × Option String :=
  if i = 1 then (false, none) else (true, none)

/-! ## Theorems about `MaridQueueMessage.Process` -/

/-- Once the body decodes to a payload whose action is non-empty and mapped,
`Process` hands exactly one result to `SendResultToOpsGenieFunc`: it is successful
exactly when the error output of the runbook is empty, it carries the error output
as failure message, and `Process` returns `nil`. -/
theorem process_posted (ext : Externals) (mqm : MaridQueueMessage) (P : QueuePayload)
    (mappedAction : MappedAction) (output errorOutput : String) (err : Option String)
    (hdec : ext.Unmarshal mqm.message.Body = .ok P) (hact : P.Action ≠ "")
    (hmap : mqm.actionMappings.lookup P.Action = some mappedAction)
    (hrun : ext.ExecuteRunbookFunc mappedAction mqm.message.Body = (output, errorOutput, err)) :
    postedResults (mqm.Process ext).events =
        [{ IsSuccessful := decide (errorOutput = ""), AlertId := P.Alert.AlertId,
           Action := P.Action, FailureMessage := errorOutput }]
      ∧ (mqm.Process ext).err = none := by
  unfold MaridQueueMessage.Process
  simp only [hdec, hact, if_false, hmap, hrun]
  by_cases h : errorOutput = "" <;> cases err <;>
    cases hs : ext.SendResultToOpsGenieFunc _ mqm.apiKey mqm.baseUrl <;>
    simp [postedResults, h, hs]

/-- C1, at the failing input: the runbook of the mapped action `restart` returns
an empty error output together with the error `exit status 1`. `Process` logs that
the execution failed, then that it has been completed, and posts a result with
`IsSuccessful = true` and an empty failure message. -/
theorem process_error_with_empty_stderr_posts_success :
    (scenarioMessage restartBody).Process (scenarioExternals ("", "", some "exit status 1") none)
      = { events :=
            [.ExecuteRunbook restartAction restartBody,
             .Log .Debug "Action[restart] execution of message[m1] failed: exit status 1",
             .Log .Debug "Action[restart] execution of message[m1] has been completed.",
             .SendResult
               { IsSuccessful := true, AlertId := "A1", Action := "restart", FailureMessage := "" }
               "key" "https://api.example",
             .Log .Debug "Successfully sent result to OpsGenie."]
          err := none } := by
  decide

/-- C2, round trip: when the body decodes to `P`, the action of `P` is non-empty and
mapped, and the runbook returns `("x", "", nil)`, `Process` posts exactly one result,
`{true, P.alert.alertId, P.action, ""}`, and returns no error when the post
succeeds. -/
theorem process_round_trip (ext : Externals) (mqm : MaridQueueMessage) (P : QueuePayload)
    (mappedAction : MappedAction)
    (hdec : ext.Unmarshal mqm.message.Body = .ok P) (hact : P.Action ≠ "")
    (hmap : mqm.actionMappings.lookup P.Action = some mappedAction)
    (hrun : ext.ExecuteRunbookFunc mappedAction mqm.message.Body = ("x", "", none)) :
    postedResults (mqm.Process ext).events =
        [{ IsSuccessful := true, AlertId := P.Alert.AlertId, Action := P.Action,
           FailureMessage := "" }]
      ∧ (ext.SendResultToOpsGenieFunc
            { IsSuccessful := true, AlertId := P.Alert.AlertId, Action := P.Action,
              FailureMessage := "" } mqm.apiKey mqm.baseUrl = none →
          (mqm.Process ext).err = none) := by
  have h := process_posted ext mqm P mappedAction "x" "" none hdec hact hmap hrun
  refine ⟨?_, fun _ => h.2⟩
  simpa using h.1

/-- Witness of C2: the happy path of the scenarios, a runbook answering
`("x", "", nil)` for the message `restart` of alert `A1`. -/
theorem process_round_trip_witness :
    postedResults ((scenarioMessage restartBody).Process
        (scenarioExternals ("x", "", none) none)).events =
        [{ IsSuccessful := true, AlertId := "A1", Action := "restart", FailureMessage := "" }]
      ∧ ((scenarioExternals ("x", "", none) none).SendResultToOpsGenieFunc
            { IsSuccessful := true, AlertId := "A1", Action := "restart", FailureMessage := "" }
            "key" "https://api.example" = none →
          ((scenarioMessage restartBody).Process
            (scenarioExternals ("x", "", none) none)).err = none) :=
  process_round_trip (scenarioExternals ("x", "", none) none) (scenarioMessage restartBody)
    { Action := "restart", Alert := { AlertId := "A1" } } restartAction
    rfl (by decide) (by decide) rfl

/-- C3 is false as stated: for the body with action `nope` and no mapping for it,
`Process` calls nothing at all, so it does not post the failed result of the
claim; it returns the error `There is no mapped action found for [nope]`. -/
theorem process_unknown_action_posts_nothing :
    (scenarioMessage nopeBody).Process (scenarioExternals ("ok", "", none) none)
        = { events := [], err := some "There is no mapped action found for [nope]" }
      ∧ postedResults ((scenarioMessage nopeBody).Process
          (scenarioExternals ("ok", "", none) none)).events
        ≠ [{ IsSuccessful := false, AlertId := "A9", Action := "nope",
             FailureMessage := "There is no mapped action found for [nope]" }] := by
  decide

/-- C3, amended: `Process` posts exactly one result, for the alert and the action of
the payload, when the body decodes to a payload whose action is non-empty and
mapped. When the body does not decode, when the action is empty and when the action
is not mapped, it posts nothing and returns a non-nil error: the decoding error,
`SQS message does not contain action property`, and
`There is no mapped action found for [action]`. -/
theorem process_posts_once_when_mapped_else_returns_error (ext : Externals)
    (mqm : MaridQueueMessage) :
    (∀ P mappedAction, ext.Unmarshal mqm.message.Body = .ok P → P.Action ≠ "" →
        mqm.actionMappings.lookup P.Action = some mappedAction →
        ∃ result, postedResults (mqm.Process ext).events = [result]
          ∧ result.AlertId = P.Alert.AlertId ∧ result.Action = P.Action)
      ∧ (∀ e, ext.Unmarshal mqm.message.Body = .error e →
          postedResults (mqm.Process ext).events = [] ∧ (mqm.Process ext).err = some e)
      ∧ (∀ P, ext.Unmarshal mqm.message.Body = .ok P → P.Action = "" →
          postedResults (mqm.Process ext).events = []
            ∧ (mqm.Process ext).err = some "SQS message does not contain action property")
      ∧ (∀ P, ext.Unmarshal mqm.message.Body = .ok P → P.Action ≠ "" →
          mqm.actionMappings.lookup P.Action = none →
          postedResults (mqm.Process ext).events = []
            ∧ (mqm.Process ext).err
              = some ("There is no mapped action found for [" ++ P.Action ++ "]")) := by
  refine ⟨?_, ?_, ?_, ?_⟩
  · intro P mappedAction hdec hact hmap
    rcases hrun : ext.ExecuteRunbookFunc mappedAction mqm.message.Body with ⟨o, eo, err⟩
    exact ⟨_, (process_posted ext mqm P mappedAction o eo err hdec hact hmap hrun).1, rfl, rfl⟩
  · intro e hdec
    simp [MaridQueueMessage.Process, hdec, postedResults]
  · intro P hdec hact
    simp [MaridQueueMessage.Process, hdec, hact, postedResults]
  · intro P hdec hact hmap
    simp [MaridQueueMessage.Process, hdec, hact, hmap, postedResults]

/-- Witness of amended C3: the unmapped action `nope` (nothing posted, an error
returned), a body that is not JSON (nothing posted, the decoding error returned)
and the mapped action `restart` (one result posted). -/
theorem process_posts_once_when_mapped_else_returns_error_witness :
    (postedResults ((scenarioMessage nopeBody).Process
          (scenarioExternals ("ok", "", none) none)).events = []
        ∧ ((scenarioMessage nopeBody).Process (scenarioExternals ("ok", "", none) none)).err
          = some ("There is no mapped action found for [" ++ "nope" ++ "]"))
      ∧ (postedResults ((scenarioMessage "not json").Process
          (scenarioExternals ("ok", "", none) none)).events = []
        ∧ ((scenarioMessage "not json").Process (scenarioExternals ("ok", "", none) none)).err
          = some "invalid character")
      ∧ (∃ result, postedResults ((scenarioMessage restartBody).Process
          (scenarioExternals ("ok", "", none) none)).events = [result]
        ∧ result.AlertId = "A1" ∧ result.Action = "restart") :=
  ⟨(process_posts_once_when_mapped_else_returns_error (scenarioExternals ("ok", "", none) none)
      (scenarioMessage nopeBody)).2.2.2 { Action := "nope", Alert := { AlertId := "A9" } }
      rfl (by decide) (by decide),
   (process_posts_once_when_mapped_else_returns_error (scenarioExternals ("ok", "", none) none)
      (scenarioMessage "not json")).2.1 "invalid character" rfl,
   (process_posts_once_when_mapped_else_returns_error (scenarioExternals ("ok", "", none) none)
      (scenarioMessage restartBody)).1 { Action := "restart", Alert := { AlertId := "A1" } }
      restartAction rfl (by decide) (by decide)⟩

/-- C4 is false as stated: for the message `restart` whose result post fails with
`503 Service Unavailable`, `Process` logs a warning and returns `nil`. -/
theorem process_post_failure_returns_nil :
    (scenarioExternals ("ok", "", none) (some "503 Service Unavailable")).SendResultToOpsGenieFunc
        { IsSuccessful := true, AlertId := "A1", Action := "restart", FailureMessage := "" }
        "key" "https://api.example" = some "503 Service Unavailable"
      ∧ (scenarioMessage restartBody).Process
          (scenarioExternals ("ok", "", none) (some "503 Service Unavailable"))
        = { events :=
              [.ExecuteRunbook restartAction restartBody,
               .Log .Debug "Action[restart] execution of message[m1] has been completed.",
               .SendResult
                 { IsSuccessful := true, AlertId := "A1", Action := "restart",
                   FailureMessage := "" }
                 "key" "https://api.example",
               .Log .Warn ("Could not send action[restart] result of message[m1] to Opsgenie: "
                 ++ "503 Service Unavailable")]
            err := none } := by
  decide

/-- C4, amended: for every message that reaches the posting step (the body decodes,
the action is non-empty and mapped), `Process` posts one result and returns `nil`,
whether the post returns an error or succeeds. A post failure is only logged: when
the post of that result returns the error `e`, the last thing `Process` does is to
log the warning `Could not send action[action] result of message[id] to Opsgenie: e`;
when the post succeeds, it is to log `Successfully sent result to OpsGenie.` at debug
level. -/
theorem process_returns_nil_whatever_the_post_returns (ext : Externals)
    (mqm : MaridQueueMessage) (P : QueuePayload) (mappedAction : MappedAction)
    (hdec : ext.Unmarshal mqm.message.Body = .ok P) (hact : P.Action ≠ "")
    (hmap : mqm.actionMappings.lookup P.Action = some mappedAction) :
    (∃ result, postedResults (mqm.Process ext).events = [result]
        ∧ (∀ e, ext.SendResultToOpsGenieFunc result mqm.apiKey mqm.baseUrl = some e →
            (mqm.Process ext).events.getLast?
              = some (.Log .Warn ("Could not send action[" ++ P.Action
                  ++ "] result of message[" ++ mqm.message.MessageId ++ "] to Opsgenie: " ++ e)))
        ∧ (ext.SendResultToOpsGenieFunc result mqm.apiKey mqm.baseUrl = none →
            (mqm.Process ext).events.getLast?
              = some (.Log .Debug "Successfully sent result to OpsGenie.")))
      ∧ (mqm.Process ext).err = none := by
  rcases hrun : ext.ExecuteRunbookFunc mappedAction mqm.message.Body with ⟨o, eo, err⟩
  have h := process_posted ext mqm P mappedAction o eo err hdec hact hmap hrun
  refine ⟨⟨_, h.1, ?_, ?_⟩, h.2⟩
  · intro e he
    unfold MaridQueueMessage.Process
    simp only [hdec, hact, if_false, hmap, hrun]
    cases err <;> by_cases hs : eo = "" <;> simp [hs] at he ⊢ <;>
      simp [he, List.getLast?_cons_cons]
  · intro he
    unfold MaridQueueMessage.Process
    simp only [hdec, hact, if_false, hmap, hrun]
    cases err <;> by_cases hs : eo = "" <;> simp [hs] at he ⊢ <;>
      simp [he, List.getLast?_cons_cons]

/-- Witness of amended C4: the message `restart` with a post that fails with
`connection refused`: one result is posted, the warning is the last event, and
`Process` returns `nil`. -/
theorem process_returns_nil_whatever_the_post_returns_witness :
    (∃ result, postedResults ((scenarioMessage restartBody).Process
          (scenarioExternals ("ok", "", none) (some "connection refused"))).events = [result])
      ∧ ((scenarioMessage restartBody).Process
          (scenarioExternals ("ok", "", none) (some "connection refused"))).events.getLast?
        = some (.Log .Warn
            "Could not send action[restart] result of message[m1] to Opsgenie: connection refused")
      ∧ ((scenarioMessage restartBody).Process
          (scenarioExternals ("ok", "", none) (some "connection refused"))).err = none :=
  match process_returns_nil_whatever_the_post_returns
    (scenarioExternals ("ok", "", none) (some "connection refused")) (scenarioMessage restartBody)
    { Action := "restart", Alert := { AlertId := "A1" } } restartAction
    rfl (by decide) (by decide) with
  | ⟨⟨result, hposted, hwarn, _⟩, herr⟩ =>
    ⟨⟨result, hposted⟩, hwarn "connection refused" rfl, herr⟩

/-- C5 is false as stated: when the runbook returns the error output `boom` and the
error `exit status 1`, the posted result is unsuccessful but its failure message is
`boom`, not the text of the error. -/
theorem process_tie_break_posts_stderr :
    postedResults ((scenarioMessage restartBody).Process
        (scenarioExternals ("", "boom", some "exit status 1") none)).events
        = [{ IsSuccessful := false, AlertId := "A1", Action := "restart",
             FailureMessage := "boom" }]
      ∧ postedResults ((scenarioMessage restartBody).Process
          (scenarioExternals ("", "boom", some "exit status 1") none)).events
        ≠ [{ IsSuccessful := false, AlertId := "A1", Action := "restart",
             FailureMessage := "exit status 1" }] := by
  decide

/-- C5, amended: for every mapped action whose runbook returns both a non-empty
error output and a non-nil error `e`, the result posted by `Process` has
`IsSuccessful = false` and a failure message equal to the error output. The text of
the error is only logged: the events of `Process` are the execution of the runbook,
the debug line `Action[action] execution of message[id] failed: e`, the debug line
about the error output, the post of that result, and one final log line about the
post. -/
theorem process_both_populated_posts_stderr (ext : Externals) (mqm : MaridQueueMessage)
    (P : QueuePayload) (mappedAction : MappedAction) (output errorOutput e : String)
    (hdec : ext.Unmarshal mqm.message.Body = .ok P) (hact : P.Action ≠ "")
    (hmap : mqm.actionMappings.lookup P.Action = some mappedAction)
    (hrun : ext.ExecuteRunbookFunc mappedAction mqm.message.Body = (output, errorOutput, some e))
    (hstderr : errorOutput ≠ "") :
    postedResults (mqm.Process ext).events =
        [{ IsSuccessful := false, AlertId := P.Alert.AlertId, Action := P.Action,
           FailureMessage := errorOutput }]
      ∧ ∃ level text, (mqm.Process ext).events =
        [.ExecuteRunbook mappedAction mqm.message.Body,
         .Log .Debug ("Action[" ++ P.Action ++ "] execution of message[" ++ mqm.message.MessageId
           ++ "] failed: " ++ e),
         .Log .Debug ("Action[" ++ P.Action ++ "] execution of message[" ++ mqm.message.MessageId
           ++ "] produce error output: " ++ errorOutput),
         .SendResult
           { IsSuccessful := false, AlertId := P.Alert.AlertId, Action := P.Action,
             FailureMessage := errorOutput } mqm.apiKey mqm.baseUrl,
         .Log level text] := by
  have h := process_posted ext mqm P mappedAction output errorOutput (some e) hdec hact hmap hrun
  refine ⟨by simpa [hstderr] using h.1, ?_⟩
  unfold MaridQueueMessage.Process
  simp only [hdec, hact, if_false, hmap, hrun]
  cases hs : ext.SendResultToOpsGenieFunc
    { IsSuccessful := false, AlertId := P.Alert.AlertId, Action := P.Action,
      FailureMessage := errorOutput } mqm.apiKey mqm.baseUrl <;>
    simp [hstderr, hs]

/-- Witness of amended C5: error output `disk full`, error `exit status 2`: the
posted failure message is `disk full`, and `exit status 2` is in the debug log. -/
theorem process_both_populated_posts_stderr_witness :
    postedResults ((scenarioMessage restartBody).Process
        (scenarioExternals ("", "disk full", some "exit status 2") none)).events =
        [{ IsSuccessful := false, AlertId := "A1", Action := "restart",
           FailureMessage := "disk full" }]
      ∧ ∃ level text, ((scenarioMessage restartBody).Process
        (scenarioExternals ("", "disk full", some "exit status 2") none)).events =
        [.ExecuteRunbook restartAction restartBody,
         .Log .Debug "Action[restart] execution of message[m1] failed: exit status 2",
         .Log .Debug "Action[restart] execution of message[m1] produce error output: disk full",
         .SendResult
           { IsSuccessful := false, AlertId := "A1", Action := "restart",
             FailureMessage := "disk full" } "key" "https://api.example",
         .Log level text] :=
  process_both_populated_posts_stderr (scenarioExternals ("", "disk full", some "exit status 2") none)
    (scenarioMessage restartBody) { Action := "restart", Alert := { AlertId := "A1" } }
    restartAction "" "disk full" "exit status 2" rfl (by decide) (by decide) rfl
    (by decide)

/-! ## Theorems about `MaridPoller.poll` -/

/-- The visibility calls of a concatenated trace. -/
theorem visibilityCalls_append (s t : List PollEvent) :
    visibilityCalls (s ++ t) = visibilityCalls s ++ visibilityCalls t := by
  simp [visibilityCalls]

/-- The submit calls of a concatenated trace. -/
theorem submitCalls_append (s t : List PollEvent) :
    submitCalls (s ++ t) = submitCalls s ++ submitCalls t := by
  simp [submitCalls]

/-- The receive calls of a concatenated trace. -/
theorem receiveCalls_append (s t : List PollEvent) :
    receiveCalls (s ++ t) = receiveCalls s ++ receiveCalls t := by
  simp [receiveCalls]

/-- The loop `terminateMessageVisibility` calls `ChangeMessageVisibility` with timeout `0`
once for each of its messages, in order, whatever the calls return. -/
theorem terminate_visibilityCalls (p : MaridPoller) (messages : List Message) :
    ∀ trace, visibilityCalls (p.terminateMessageVisibility messages trace)
      = visibilityCalls trace ++ messages.map fun m => (m, (0 : Int)) := by
  induction messages with
  | nil => intro trace; simp [MaridPoller.terminateMessageVisibility]
  | cons m rest ih =>
    intro trace
    simp only [MaridPoller.terminateMessageVisibility]
    split <;> simp [ih, visibilityCalls_append] <;> simp [visibilityCalls]

/-- The loop `terminateMessageVisibility` submits nothing. -/
theorem terminate_submitCalls (p : MaridPoller) (messages : List Message) :
    ∀ trace, submitCalls (p.terminateMessageVisibility messages trace) = submitCalls trace := by
  induction messages with
  | nil => intro trace; simp [MaridPoller.terminateMessageVisibility]
  | cons m rest ih =>
    intro trace
    simp only [MaridPoller.terminateMessageVisibility]
    split <;> simp [ih, submitCalls_append] <;> simp [submitCalls]

/-- The loop `terminateMessageVisibility` receives nothing. -/
theorem terminate_receiveCalls (p : MaridPoller) (messages : List Message) :
    ∀ trace, receiveCalls (p.terminateMessageVisibility messages trace) = receiveCalls trace := by
  induction messages with
  | nil => intro trace; simp [MaridPoller.terminateMessageVisibility]
  | cons m rest ih =>
    intro trace
    simp only [MaridPoller.terminateMessageVisibility]
    split <;> simp [ih, receiveCalls_append] <;> simp [receiveCalls]

/-- The loop of `poll` receives nothing. -/
theorem pollLoop_receiveCalls (p : MaridPoller) (messages : List Message) :
    ∀ i trace, receiveCalls (p.pollLoop i messages trace).trace = receiveCalls trace := by
  induction messages with
  | nil => intro i trace; simp [MaridPoller.pollLoop]
  | cons m rest ih =>
    intro i trace
    simp only [MaridPoller.pollLoop]
    split <;> simp [ih, terminate_receiveCalls, receiveCalls_append] <;> simp [receiveCalls]

/-- The loop of `poll` over messages for which no `Submit` returns an error: every
message is submitted, the refused ones are released, and the loop ends with
`shouldWait = false`. -/
theorem pollLoop_without_error (p : MaridPoller) (messages : List Message) :
    ∀ i trace,
      (∀ j (hj : j < messages.length),
        (p.workerPool.Submit (i + j) (p.newJob messages[j])).2 = none) →
      visibilityCalls (p.pollLoop i messages trace).trace
          = visibilityCalls trace ++ (p.refused i messages).map (fun m => (m, (0 : Int)))
        ∧ submitCalls (p.pollLoop i messages trace).trace
          = submitCalls trace ++ messages.map p.newJob
        ∧ (p.pollLoop i messages trace).shouldWait = false := by
  induction messages with
  | nil => intro i trace _; simp [MaridPoller.pollLoop, MaridPoller.refused]
  | cons m rest ih =>
    intro i trace h
    have h0 := h 0 (by simp)
    have hrest : ∀ j (hj : j < rest.length),
        (p.workerPool.Submit (i + 1 + j) (p.newJob rest[j])).2 = none := by
      intro j hj
      have := h (j + 1) (by simp; omega)
      simpa [Nat.add_assoc, Nat.add_comm 1 j] using this
    rcases hS : p.workerPool.Submit i (p.newJob m) with ⟨b, e⟩
    simp [hS] at h0
    subst h0
    obtain ⟨h1, h2, h3⟩ := ih (i + 1) (trace ++ [.Submit (p.newJob m)]) hrest
    obtain ⟨k1, k2, k3⟩ := ih (i + 1)
      (p.terminateMessageVisibility [m] (trace ++ [.Submit (p.newJob m)])) hrest
    cases b
    · simp only [MaridPoller.pollLoop, hS]
      refine ⟨?_, ?_, k3⟩
      · rw [k1, terminate_visibilityCalls, visibilityCalls_append]
        simp [MaridPoller.refused, List.enumFrom_cons, List.filter_cons, hS, visibilityCalls]
      · rw [k2, terminate_submitCalls, submitCalls_append]
        simp [submitCalls]
    · simp only [MaridPoller.pollLoop, hS]
      refine ⟨?_, ?_, h3⟩
      · rw [h1, visibilityCalls_append]
        simp [MaridPoller.refused, List.enumFrom_cons, List.filter_cons, hS, visibilityCalls]
      · rw [h2, submitCalls_append]
        simp [submitCalls]

/-- The loop of `poll` over `before ++ m :: after` when `Submit` returns no error for
`before` and an error for `m`: the refused messages of `before` are released, then
`m` and all of `after`; nothing of `after` is submitted; the loop ends with
`shouldWait = true`. -/
theorem pollLoop_error_at (p : MaridPoller) (before : List Message) (m : Message)
    (after : List Message) :
    ∀ i trace,
      (∀ j (hj : j < before.length),
        (p.workerPool.Submit (i + j) (p.newJob before[j])).2 = none) →
      (p.workerPool.Submit (i + before.length) (p.newJob m)).2 ≠ none →
      visibilityCalls (p.pollLoop i (before ++ m :: after) trace).trace
          = visibilityCalls trace ++ (p.refused i before).map (fun m => (m, (0 : Int)))
            ++ (m :: after).map (fun m => (m, (0 : Int)))
        ∧ submitCalls (p.pollLoop i (before ++ m :: after) trace).trace
          = submitCalls trace ++ (before ++ [m]).map p.newJob
        ∧ (p.pollLoop i (before ++ m :: after) trace).shouldWait = true := by
  induction before with
  | nil =>
    intro i trace _ hat
    rcases hS : p.workerPool.Submit i (p.newJob m) with ⟨b, e⟩
    cases e with
    | none => simp [hS] at hat
    | some err =>
    rw [List.nil_append, MaridPoller.pollLoop]
    simp only [hS]
    refine ⟨?_, ?_, trivial⟩
    · rw [terminate_visibilityCalls]
      simp [visibilityCalls_append, MaridPoller.refused, visibilityCalls]
    · rw [terminate_submitCalls]
      simp [submitCalls_append, submitCalls]
  | cons x before ih =>
    intro i trace h hat
    have h0 := h 0 (by simp)
    have hrest : ∀ j (hj : j < before.length),
        (p.workerPool.Submit (i + 1 + j) (p.newJob before[j])).2 = none := by
      intro j hj
      have := h (j + 1) (by simp; omega)
      simpa [Nat.add_assoc, Nat.add_comm 1 j] using this
    have hat1 : (p.workerPool.Submit (i + 1 + before.length) (p.newJob m)).2 ≠ none := by
      simpa [Nat.add_assoc, Nat.add_comm 1 before.length] using hat
    rcases hS : p.workerPool.Submit i (p.newJob x) with ⟨b, e⟩
    simp [hS] at h0
    subst h0
    obtain ⟨h1, h2, h3⟩ := ih (i + 1) (trace ++ [.Submit (p.newJob x)]) hrest hat1
    obtain ⟨k1, k2, k3⟩ := ih (i + 1)
      (p.terminateMessageVisibility [x] (trace ++ [.Submit (p.newJob x)])) hrest hat1
    cases b
    · rw [List.cons_append, MaridPoller.pollLoop]
      simp only [hS]
      refine ⟨?_, ?_, k3⟩
      · rw [k1, terminate_visibilityCalls, visibilityCalls_append]
        simp [MaridPoller.refused, List.enumFrom_cons, List.filter_cons, hS, visibilityCalls]
      · rw [k2, terminate_submitCalls, submitCalls_append]
        simp [submitCalls]
    · rw [List.cons_append, MaridPoller.pollLoop]
      simp only [hS]
      refine ⟨?_, ?_, h3⟩
      · rw [h1, visibilityCalls_append]
        simp [MaridPoller.refused, List.enumFrom_cons, List.filter_cons, hS, visibilityCalls]
      · rw [h2, submitCalls_append]
        simp [submitCalls]

/-- When workers are available and a non-empty batch is received, `poll` is its loop
over the batch, started after the two calls and the log line that precede it. -/
theorem poll_eq_pollLoop (p : MaridPoller) (messages : List Message)
    (havailable : 0 < p.workerPool.NumberOfAvailableWorker)
    (hreceive : p.queueProvider.ReceiveMessage
        (Min p.pollerConf.MaxNumberOfMessages p.workerPool.NumberOfAvailableWorker)
        p.pollerConf.VisibilityTimeoutInSeconds = (messages, none))
    (hne : messages ≠ []) :
    p.poll = p.pollLoop 0 messages
      [.NumberOfAvailableWorker,
       .ReceiveMessage
         (Min p.pollerConf.MaxNumberOfMessages p.workerPool.NumberOfAvailableWorker)
         p.pollerConf.VisibilityTimeoutInSeconds,
       .Log .Debug ("Received " ++ toString messages.length ++ " messages from the queue["
         ++ p.queueProvider.Region ++ "].")] := by
  simp [MaridPoller.poll, havailable, hreceive, hne]

/-- C6, release on pool stopped: when workers are available, the batch `messages` is
received, `Submit` returns no error for the messages before index `i` and a non-nil
error at index `i`, then the `ChangeMessageVisibility` calls of `poll` are, in order,
one call with timeout `0` for each message before `i` that the pool refused, then
exactly one call with timeout `0` for each of `messages[i..k)`, whatever the calls
return; the `Submit` calls are those for `messages[0..i]`, none after index `i`; and
`poll` returns `shouldWait = true`. -/
theorem poll_releases_rest_when_submit_fails (p : MaridPoller) (messages : List Message)
    (i : Nat)
    (havailable : 0 < p.workerPool.NumberOfAvailableWorker)
    (hreceive : p.queueProvider.ReceiveMessage
        (Min p.pollerConf.MaxNumberOfMessages p.workerPool.NumberOfAvailableWorker)
        p.pollerConf.VisibilityTimeoutInSeconds = (messages, none))
    (hi : i < messages.length)
    (hbefore : ∀ j (hj : j < messages.length), j < i →
      (p.workerPool.Submit j (p.newJob messages[j])).2 = none)
    (hat : (p.workerPool.Submit i (p.newJob messages[i])).2 ≠ none) :
    visibilityCalls p.poll.trace
        = (p.refused 0 (messages.take i)).map (fun m => (m, (0 : Int)))
          ++ (messages.drop i).map (fun m => (m, (0 : Int)))
      ∧ submitCalls p.poll.trace = (messages.take (i + 1)).map p.newJob
      ∧ p.poll.shouldWait = true := by
  have hne : messages ≠ [] := by
    intro h; simp [h] at hi
  have hsplit : messages = messages.take i ++ messages[i] :: messages.drop (i + 1) := by
    rw [← List.drop_eq_getElem_cons hi, List.take_append_drop]
  have hlen : (messages.take i).length = i := by simp; omega
  have hpre : ∀ j (hj : j < (messages.take i).length),
      (p.workerPool.Submit (0 + j) (p.newJob (messages.take i)[j])).2 = none := by
    intro j hj
    have hji : j < i := by simpa [hlen] using hj
    have := hbefore j (by omega) hji
    simpa [List.getElem_take] using this
  have hat0 : (p.workerPool.Submit (0 + (messages.take i).length) (p.newJob messages[i])).2
      ≠ none := by
    simpa [hlen] using hat
  obtain ⟨h1, h2, h3⟩ := pollLoop_error_at p (messages.take i) messages[i]
    (messages.drop (i + 1)) 0
    [.NumberOfAvailableWorker,
     .ReceiveMessage
       (Min p.pollerConf.MaxNumberOfMessages p.workerPool.NumberOfAvailableWorker)
       p.pollerConf.VisibilityTimeoutInSeconds,
     .Log .Debug ("Received " ++ toString messages.length ++ " messages from the queue["
       ++ p.queueProvider.Region ++ "].")] hpre hat0
  rw [← hsplit] at h1 h2 h3
  have htake : messages.take (i + 1) = messages.take i ++ [messages[i]] := by
    rw [List.take_succ, List.getElem?_eq_getElem hi]; rfl
  rw [poll_eq_pollLoop p messages havailable hreceive hne, h1, h2, h3, htake,
    ← List.drop_eq_getElem_cons hi]
  simp [visibilityCalls, submitCalls]

/-- Witness of C6: the batch `[m1, m2, m3]` with a pool stopped at `m2`, and a
provider whose first `ChangeMessageVisibility` fails: the visibility of `m2` and of
`m3` is terminated, `m3` is not submitted, and `poll` asks to wait. -/
theorem poll_releases_rest_when_submit_fails_witness :
    visibilityCalls (scenarioPoller 3 stoppedAtSecond [m1, m2, m3]).poll.trace
        = [(m2, 0), (m3, 0)]
      ∧ submitCalls (scenarioPoller 3 stoppedAtSecond [m1, m2, m3]).poll.trace
        = [(scenarioPoller 3 stoppedAtSecond [m1, m2, m3]).newJob m1,
           (scenarioPoller 3 stoppedAtSecond [m1, m2, m3]).newJob m2]
      ∧ (scenarioPoller 3 stoppedAtSecond [m1, m2, m3]).poll.shouldWait = true :=
  poll_releases_rest_when_submit_fails (scenarioPoller 3 stoppedAtSecond [m1, m2, m3])
    [m1, m2, m3] 1 (by decide) rfl (by decide)
    (by
      intro j _ hj
      have hj0 : j = 0 := by omega
      subst hj0
      rfl)
    (by decide)

/-- C7, release on overflow: when workers are available, the non-empty batch
`messages` is received and no `Submit` returns an error, the
`ChangeMessageVisibility` calls of `poll` are exactly one call with timeout `0` for
each message whose `Submit` returned `(false, nil)`, in the order of the batch, and
none for a message whose `Submit` returned `(true, nil)`; every message of the batch
is submitted; and `poll` returns `shouldWait = false`. -/
theorem poll_releases_exactly_the_refused (p : MaridPoller) (messages : List Message)
    (havailable : 0 < p.workerPool.NumberOfAvailableWorker)
    (hreceive : p.queueProvider.ReceiveMessage
        (Min p.pollerConf.MaxNumberOfMessages p.workerPool.NumberOfAvailableWorker)
        p.pollerConf.VisibilityTimeoutInSeconds = (messages, none))
    (hne : messages ≠ [])
    (hnoerr : ∀ j (hj : j < messages.length),
      (p.workerPool.Submit j (p.newJob messages[j])).2 = none) :
    visibilityCalls p.poll.trace = (p.refused 0 messages).map (fun m => (m, (0 : Int)))
      ∧ submitCalls p.poll.trace = messages.map p.newJob
      ∧ p.poll.shouldWait = false := by
  have h := pollLoop_without_error p messages 0
    [.NumberOfAvailableWorker,
     .ReceiveMessage
       (Min p.pollerConf.MaxNumberOfMessages p.workerPool.NumberOfAvailableWorker)
       p.pollerConf.VisibilityTimeoutInSeconds,
     .Log .Debug ("Received " ++ toString messages.length ++ " messages from the queue["
       ++ p.queueProvider.Region ++ "].")]
    (by intro j hj; simpa using hnoerr j hj)
  rw [poll_eq_pollLoop p messages havailable hreceive hne]
  obtain ⟨h1, h2, h3⟩ := h
  rw [h1, h2, h3]
  simp [visibilityCalls, submitCalls]

/-- Witness of C7: the batch `[m1, m2, m3]` with a pool that is full for `m2` only:
the visibility of `m2` alone is terminated, `m3` is still submitted, and `poll` does
not ask to wait. -/
theorem poll_releases_exactly_the_refused_witness :
    visibilityCalls (scenarioPoller 3 fullAtSecond [m1, m2, m3]).poll.trace = [(m2, 0)]
      ∧ submitCalls (scenarioPoller 3 fullAtSecond [m1, m2, m3]).poll.trace
        = [m1, m2, m3].map (scenarioPoller 3 fullAtSecond [m1, m2, m3]).newJob
      ∧ (scenarioPoller 3 fullAtSecond [m1, m2, m3]).poll.shouldWait = false :=
  poll_releases_exactly_the_refused (scenarioPoller 3 fullAtSecond [m1, m2, m3])
    [m1, m2, m3] (by decide) rfl (by decide)
    (by
      intro j hj
      have hj3 : j < 3 := hj
      interval_cases j <;> rfl)

/-- C8, backpressure: with `n` the value `NumberOfAvailableWorker()` returns at the
start of `poll`: if `n ≤ 0`, `ReceiveMessage` is not called and `poll` returns
`shouldWait = true`; otherwise `ReceiveMessage` is called exactly once, with
`Min(pollerConf.MaxNumberOfMessages, n)`, which is at most `n`, and with the
configured visibility timeout. -/
theorem poll_backpressure (p : MaridPoller) :
    (p.workerPool.NumberOfAvailableWorker ≤ 0 →
        receiveCalls p.poll.trace = [] ∧ p.poll.shouldWait = true)
      ∧ (0 < p.workerPool.NumberOfAvailableWorker →
        receiveCalls p.poll.trace
            = [(Min p.pollerConf.MaxNumberOfMessages p.workerPool.NumberOfAvailableWorker,
                p.pollerConf.VisibilityTimeoutInSeconds)]
          ∧ Min p.pollerConf.MaxNumberOfMessages p.workerPool.NumberOfAvailableWorker
            ≤ p.workerPool.NumberOfAvailableWorker) := by
  constructor
  · intro h
    have hn : ¬ (0 < p.workerPool.NumberOfAvailableWorker) := by omega
    simp [MaridPoller.poll, hn, receiveCalls]
  · intro h
    refine ⟨?_, min_le_right _ _⟩
    simp only [MaridPoller.poll, gt_iff_lt, h, not_true_eq_false, if_false]
    split
    · simp [receiveCalls]
    · split
      · simp [receiveCalls]
      · rw [pollLoop_receiveCalls]
        simp [receiveCalls]

/-- Witness of C8: with no available worker nothing is received; with two available
workers and a configured maximum of ten, at most two messages are asked for, with
the visibility timeout of thirty seconds. -/
theorem poll_backpressure_witness :
    (receiveCalls (scenarioPoller 0 fullAtSecond [m1, m2, m3]).poll.trace = []
        ∧ (scenarioPoller 0 fullAtSecond [m1, m2, m3]).poll.shouldWait = true)
      ∧ (receiveCalls (scenarioPoller 2 fullAtSecond [m1, m2]).poll.trace = [(2, 30)]
        ∧ Min 10 2 ≤ 2) :=
  ⟨(poll_backpressure (scenarioPoller 0 fullAtSecond [m1, m2, m3])).1 (by decide),
   (poll_backpressure (scenarioPoller 2 fullAtSecond [m1, m2])).2 (by decide)⟩

/-! ## Theorems about `StartPolling` and `StopPolling` -/

/-- The transitions of the lifecycle that behave as a two-state machine: the two
refusals leave the poller as it is, `StartPolling` on a stopped poller starts the run
loop and sets `isRunning`, and `StopPolling` on a running poller whose two channels
are still open closes both and clears `isRunning`. -/
theorem lifecycle_transitions (p : MaridPoller) :
    (p.isRunning = true →
        p.StartPolling
          = { poller := p, err := some "Poller is already running.", runStarted := false })
      ∧ (p.isRunning = false →
        p.StopPolling = .ok { poller := p, err := some "Poller is not running." })
      ∧ (p.isRunning = false →
        p.StartPolling = { poller := { p with isRunning := true }, err := none, runStarted := true })
      ∧ (p.isRunning = true → p.quit.closed = false → p.wakeUpChan.closed = false →
        p.StopPolling
          = .ok { poller :=
                    { p with
                      quit := { closed := true }
                      wakeUpChan := { closed := true }
                      isRunning := false }
                  err := none }) := by
  refine ⟨?_, ?_, ?_, ?_⟩
  · intro h; simp [MaridPoller.StartPolling, h]
  · intro h; simp [MaridPoller.StopPolling, h]
  · intro h; simp [MaridPoller.StartPolling, h]
  · intro h hq hw
    simp [MaridPoller.StopPolling, h, Chan.close, hq, hw, bind, Except.bind]

/-- C9, at the failing input: a poller built by `NewPoller` and taken through
`StartPolling`, `StopPolling`, `StartPolling` is running, with no call refused or
panicking on the way, and its two channels are closed; `StopPolling` on this running
poller does not return `nil`: it panics in `close(p.quit)`. -/
theorem stopPolling_on_restarted_poller_panics (workerPool : WorkerPool)
    (queueProvider : QueueProvider) (pollerConf : PollerConf) (actionMappings : ActionMappings)
    (apiKey baseUrl integrationId : String) :
    ∃ q : MaridPoller,
      (NewPoller workerPool queueProvider pollerConf actionMappings apiKey baseUrl
          integrationId).calls [.StartPolling, .StopPolling, .StartPolling] = .ok q
        ∧ q.isRunning = true ∧ q.quit.closed = true ∧ q.wakeUpChan.closed = true
        ∧ q.StopPolling = .error "close of closed channel" :=
  ⟨_, rfl, rfl, rfl, rfl, rfl⟩

/-- C10, at the failing input: on a poller freshly built by `NewPoller`, the sequence
`StartPolling`, `StopPolling`, `StartPolling`, `StopPolling`, each call made in the
state where it is permitted, ends in the panic of closing the already closed `quit`
channel. -/
theorem start_stop_start_stop_panics (workerPool : WorkerPool)
    (queueProvider : QueueProvider) (pollerConf : PollerConf) (actionMappings : ActionMappings)
    (apiKey baseUrl integrationId : String) :
    (NewPoller workerPool queueProvider pollerConf actionMappings apiKey baseUrl
        integrationId).calls [.StartPolling, .StopPolling, .StartPolling, .StopPolling]
      = .error "close of closed channel" :=
  rfl

end Oec
